import Mathlib

/-!
Shallow embedding of the message/request dispatch surface of
`agentverse_sdk/server.py` (class `AgentServer`), with theorems settling the
specification claims about it.

External collaborators (the envelope parser `parse_message_from_agent`,
identity creation `Identity.from_seed`, directory registration
`register_with_agentverse` and the outbound send primitive
`send_message_to_agent`, all owned by third-party libraries) are passed to
the operations as explicit function parameters.  Mutation of the Python
object is modelled by explicit state passing on `AgentServer`; a Python
exception escaping a call is modelled by `Except.error` carrying the string
`str(e)`.  Where the Python code invokes a registered callback purely for
its side effects, the model records the invocation (argument and outcome)
in an explicit call trace so that claims about which callbacks run, and how
often, are statable.
-/

/-- JSON values, as produced by flask's `jsonify` and carried in message
payloads and request bodies. -/
inductive Json where
  | null : Json
  | bool : Bool → Json
  | num : Int → Json
  | str : String → Json
  | arr : List Json → Json
  | obj : List (String × Json) → Json

/-- Field lookup in a JSON object (`none` when absent or not an object). -/
def Json.getField : Json → String → Option Json
  | Json.obj fields, k => List.lookup k fields
  | _, _ => none

/-- Python `str.startswith`: whether `pre` is an initial run of `s`.  Stated
on the character lists of the strings so that it is kernel-computable. -/
def pyStartswith (s : String) (pre : String) : Bool :=
  s.data.take pre.data.length == pre.data

/-- An HTTP response: status code plus the JSON body built by `jsonify`. -/
structure HttpResponse where
  status : Nat
  body : Json

/-- The agent identity created by the external `Identity.from_seed`; the
dispatch surface only ever reads its `address`. -/
structure Identity where
  address : String

/-- A decoded inbound message, as returned by the external envelope parser
`parse_message_from_agent`: sender identifier and payload. -/
structure Message where
  sender : String
  payload : Json

/-- A registered callback (webhook handler or custom-endpoint handler): it
receives a JSON argument and either returns a JSON value or raises, the
exception carrying the message string. -/
abbrev Handler := Json → Except String Json

/-- The `ServerConfig` dataclass. -/
structure ServerConfig where
  host : String
  port : Nat
  cors_origins : List String
  debug : Bool

/-- The `AgentMetadata` dataclass. -/
structure AgentMetadata where
  title : String
  readme : String

/-- A custom route bound on the flask app by `register_endpoint`: path,
allowed HTTP methods, and the bound `endpoint_wrapper` closure (a function
from the optional JSON request body to the response). -/
structure Route where
  path : String
  methods : List String
  wrapper : Option Json → HttpResponse

/-- The mutable state of an `AgentServer` object: constructor arguments plus
`identity` (None until `_init_agent` runs), the FIFO `message_queue`
(front of the list is the oldest entry), the `response_handlers` dict
(modelled as an association list whose most recent binding comes first, so
`List.lookup` returns the last registration for a key, as dict assignment
does), and the custom routes added to the flask app. -/
structure AgentServer where
  config : ServerConfig
  metadata : AgentMetadata
  agent_key : String
  agentverse_token : String
  identity : Option Identity
  message_queue : List Message
  response_handlers : List (String × Handler)
  routes : List Route

/-- `AgentServer.__init__`: stores the arguments and starts with no
identity, an empty message queue, an empty handler table and no custom
routes (the fixed `/api/webhook` and `/api/health` routes installed by
`_init_routes` are modelled as the named operations below). -/
def AgentServer.init (config : ServerConfig) (metadata : AgentMetadata)
    (agent_key : String) (agentverse_token : String) : AgentServer :=
  { config := config
    metadata := metadata
    agent_key := agent_key
    agentverse_token := agentverse_token
    identity := none
    message_queue := []
    response_handlers := []
    routes := [] }

/-- The JSON body `{"status": "success"}` returned by a successful webhook
call. -/
def statusSuccess : Json := Json.obj [("status", Json.str "success")]

/-- The JSON body `{"error": str(e)}` returned with HTTP 500. -/
def jsonError (msg : String) : Json := Json.obj [("error", Json.str msg)]

/-- One observed invocation of a registered webhook handler: the sender key
it was looked up under, the argument it was applied to, and its outcome
(value returned, or exception raised). -/
structure HandlerCall where
  sender : String
  arg : Json
  outcome : Except String Json

/-- Result of one webhook request: the server state afterwards, the HTTP
response, and the trace of handler invocations performed (the Python code
calls the handler only for its logged side effect, so the trace is the
model's record of that call). -/
structure WebhookResult where
  server : AgentServer
  response : HttpResponse
  handler_calls : List HandlerCall

/-- The `webhook` view function on `/api/webhook` (POST).  `parse` is the
external `parse_message_from_agent`; `rawBody` is the request body after
UTF-8 decoding.  On decode failure the outer `except` returns HTTP 500 with
`{"error": str(e)}`.  On success the decoded message is appended to the
queue; then, if the sender has a registered handler, the handler is invoked
with the payload inside an inner `try` whose `except` only logs, so the
response is `{"status": "success"}` with HTTP 200 regardless of the
handler's outcome. -/
def webhook (srv : AgentServer) (parse : String → Except String Message)
    (rawBody : String) : WebhookResult :=
  match parse rawBody with
  | Except.ok message =>
      let srv1 := { srv with message_queue := srv.message_queue ++ [message] }
      match List.lookup message.sender srv.response_handlers with
      | some h =>
          { server := srv1
            response := { status := 200, body := statusSuccess }
            handler_calls := [{ sender := message.sender, arg := message.payload,
                                outcome := h message.payload }] }
      | none =>
          { server := srv1
            response := { status := 200, body := statusSuccess }
            handler_calls := [] }
  | Except.error e =>
      { server := srv
        response := { status := 500, body := jsonError e }
        handler_calls := [] }

/-- The `health_check` view function on `/api/health` (GET): status string
and agent address derived from `self.identity`. -/
def health_check (srv : AgentServer) : HttpResponse :=
  { status := 200
    body := Json.obj [
      ("status", Json.str (if srv.identity.isSome then "healthy" else "initializing")),
      ("agent_address", match srv.identity with
        | some i => Json.str i.address
        | none => Json.null)] }

/-- `register_handler`: dict assignment
`self.response_handlers[agent_address] = handler`, modelled by prepending
the binding (lookup returns the most recent binding, as dict overwrite
does). -/
def register_handler (srv : AgentServer) (agent_address : String)
    (handler : Handler) : AgentServer :=
  { srv with response_handlers := (agent_address, handler) :: srv.response_handlers }

/-- The Python expression `methods or ["POST"]`: `None` and the empty list
are falsy and give the default `["POST"]`; a non-empty list is kept. -/
def resolveMethods : Option (List String) → List String
  | none => ["POST"]
  | some [] => ["POST"]
  | some ms => ms

/-- The `endpoint_wrapper` closure bound by `register_endpoint`: the request
body is the parsed JSON when the request is JSON (`some j`), else the empty
dict; the callback's result is returned as JSON, and a raised exception is
turned into HTTP 500 with `{"error": str(e)}`. -/
def endpoint_wrapper (handler : Handler) (body : Option Json) : HttpResponse :=
  match handler (match body with
    | some j => j
    | none => Json.obj []) with
  | Except.ok result => { status := 200, body := result }
  | Except.error e => { status := 500, body := jsonError e }

/-- `register_endpoint`: prefixes `/api/` when the path does not start with
`/`, resolves the method list (default `["POST"]`), and binds
`endpoint_wrapper` on the flask app at the resulting path.  The Python
parameter `methods` defaults to `None`; an omitted argument is modelled as
`none`. -/
def register_endpoint (srv : AgentServer) (path : String) (handler : Handler)
    (methods : Option (List String)) : AgentServer :=
  { srv with routes := srv.routes ++
      [{ path := if pyStartswith path "/" then path else "/api/" ++ path
         methods := resolveMethods methods
         wrapper := endpoint_wrapper handler }] }

/-- One observed invocation of the external outbound-send primitive
`send_message_to_agent`. -/
structure SendCall where
  identity : Identity
  recipient : String
  payload : Json

/-- `send_message`: returns `False` without any outbound call when identity
is not yet established; otherwise calls the external `send_message_to_agent`
(recorded in the returned call trace) and converts its outcome to a boolean,
catching any exception.  The server state is taken read-only: the method
mutates nothing. -/
def send_message (sendToAgent : Identity → String → Json → Except String Unit)
    (srv : AgentServer) (recipient : String) (payload : Json) :
    Bool × List SendCall :=
  match srv.identity with
  | none => (false, [])
  | some i =>
      match sendToAgent i recipient payload with
      | Except.ok _ => (true, [{ identity := i, recipient := recipient, payload := payload }])
      | Except.error _ => (false, [{ identity := i, recipient := recipient, payload := payload }])

/-- The webhook URL string built in `_init_agent`. -/
def webhookUrl (cfg : ServerConfig) : String :=
  "http://" ++ cfg.host ++ ":" ++ toString cfg.port ++ "/api/webhook"

/-- `_init_agent`: raises `ValueError("Missing required API keys")` when the
agent key or the token is empty (Python falsiness of `str`), else creates
the identity from the seed, stores it on the server, and calls the external
`register_with_agentverse`, propagating any exception it raises (the
`except` block logs and re-raises).  Returns the mutated state together
with the call's outcome (`Except.ok true` is the Python `return True`). -/
def init_agent (fromSeed : String → Nat → Identity)
    (registerDir : Identity → String → String → String → String → Except String Unit)
    (srv : AgentServer) : AgentServer × Except String Bool :=
  if srv.agent_key = "" ∨ srv.agentverse_token = "" then
    (srv, Except.error "Missing required API keys")
  else
    let i := fromSeed srv.agent_key 0
    let srv1 := { srv with identity := some i }
    match registerDir i (webhookUrl srv.config) srv.agentverse_token
        srv.metadata.title srv.metadata.readme with
    | Except.ok _ => (srv1, Except.ok true)
    | Except.error e => (srv1, Except.error e)

/-- Result of `start`: the server state afterwards, whether the call
returned normally (`Except.ok ()`) or raised, and whether the background
listener thread was launched (`server_thread.start()` was reached). -/
structure StartResult where
  server : AgentServer
  outcome : Except String Unit
  listener_started : Bool

/-- `start`: runs `_init_agent` first; an exception from it propagates
before the listener thread is created, so the thread is launched exactly
when initialization succeeds. -/
def start (fromSeed : String → Nat → Identity)
    (registerDir : Identity → String → String → String → String → Except String Unit)
    (srv : AgentServer) : StartResult :=
  match init_agent fromSeed registerDir srv with
  | (srv1, Except.ok _) => { server := srv1, outcome := Except.ok (), listener_started := true }
  | (srv1, Except.error e) => { server := srv1, outcome := Except.error e, listener_started := false }

/-- The JSON body built by `health_check`: a status string and an address
value. -/
def healthBody (status : String) (addr : Json) : Json :=
  Json.obj [("status", Json.str status), ("agent_address", addr)]

/-! Concrete fixtures used by witnesses and counterexamples. -/

/-- A concrete configuration with the `ServerConfig` default values. -/
def cfg0 : ServerConfig :=
  { host := "0.0.0.0", port := 5001, cors_origins := ["http://localhost:3000"], debug := false }

/-- Concrete agent metadata. -/
def meta0 : AgentMetadata := { title := "Search Agent", readme := "readme" }

/-- A handler that raises on every input. -/
def raisingHandler : Handler := fun _ => Except.error "boom"

/-- A freshly constructed server with a raising handler registered for the
sender agent1. -/
def srv0 : AgentServer :=
  register_handler (AgentServer.init cfg0 meta0 "seed-key" "token") "agent1" raisingHandler

/-- An envelope parser that decodes every body to a fixed message from
agent1. -/
def parseOk : String → Except String Message :=
  fun _ => Except.ok { sender := "agent1", payload := Json.str "q" }

/-- An envelope parser that fails with an exception whose message is the
empty string (in Python, `str(Exception())` is `""`). -/
def parseEmptyErr : String → Except String Message := fun _ => Except.error ""

/-- An envelope parser that fails with the exception message boom. -/
def parseBoom : String → Except String Message := fun _ => Except.error "boom"

/-- C1: whenever the raw body decodes successfully via the envelope parser,
the webhook responds HTTP 200 with body `{"status": "success"}`, for every
server state and hence for every behaviour of the registered handler —
in particular when the handler for the message's sender raises, since the
handler's outcome does not appear in the response. -/
theorem C1_webhook_success_despite_handler_exception (srv : AgentServer)
    (parse : String → Except String Message) (rawBody : String) (msg : Message)
    (hp : parse rawBody = Except.ok msg) :
    (webhook srv parse rawBody).response = ⟨200, statusSuccess⟩ := by
  rcases hl : List.lookup msg.sender srv.response_handlers with _ | h <;>
    simp [webhook, hp, hl]

/-- C1 witness: at a concrete server whose registered handler for agent1
raises, a successfully decoded request still gets the success response. -/
theorem C1_witness :
    parseOk "body" = Except.ok { sender := "agent1", payload := Json.str "q" } ∧
    (webhook srv0 parseOk "body").response = ⟨200, statusSuccess⟩ :=
  ⟨rfl, C1_webhook_success_despite_handler_exception srv0 parseOk "body" _ rfl⟩

/-- C2 counterexample: when the envelope parser fails with an exception
whose message is the empty string, the webhook does answer HTTP 500, but
the `error` field of the body is the empty string — not a non-empty string
as the claim demands: the code copies `str(e)` verbatim into the field
without guaranteeing non-emptiness. -/
theorem C2_counterexample :
    (webhook srv0 parseEmptyErr "body").response.status = 500 ∧
    ¬ ∃ s, s ≠ "" ∧
      Json.getField (webhook srv0 parseEmptyErr "body").response.body "error"
        = some (Json.str s) := by
  constructor
  · rfl
  · rintro ⟨s, hs, hf⟩
    have h0 : Json.getField (webhook srv0 parseEmptyErr "body").response.body "error"
        = some (Json.str "") := rfl
    rw [h0] at hf
    injection hf with h1
    injection h1 with h2
    exact hs h2.symm

/-- C2 amended: for every webhook request whose raw body fails envelope
decoding, the response is HTTP 500 and its `error` field carries exactly
the decoder's exception message — hence it is a non-empty string whenever
that exception message is non-empty, but empty when the message is. -/
theorem C2_error_response (srv : AgentServer)
    (parse : String → Except String Message) (rawBody : String) (e : String)
    (hp : parse rawBody = Except.error e) :
    (webhook srv parse rawBody).response = ⟨500, jsonError e⟩ ∧
    Json.getField (webhook srv parse rawBody).response.body "error" = some (Json.str e) := by
  have hr : webhook srv parse rawBody =
      { server := srv, response := ⟨500, jsonError e⟩, handler_calls := [] } := by
    unfold webhook
    rw [hp]
  rw [hr]
  exact ⟨rfl, rfl⟩

/-- C2 witness: a decode failure with message boom yields HTTP 500 and the
error field boom. -/
theorem C2_witness :
    parseBoom "body" = Except.error "boom" ∧
    (webhook srv0 parseBoom "body").response = ⟨500, jsonError "boom"⟩ ∧
    Json.getField (webhook srv0 parseBoom "body").response.body "error"
      = some (Json.str "boom") :=
  ⟨rfl, (C2_error_response srv0 parseBoom "body" "boom" rfl).1,
    (C2_error_response srv0 parseBoom "body" "boom" rfl).2⟩

/-- C3: the health check reports initializing with a null address exactly
when the identity is absent, and healthy with the identity's (non-null)
address when present; the status is healthy iff the reported address is
non-null. -/
theorem C3_health_check_status (srv : AgentServer) :
    (srv.identity = none →
      health_check srv = ⟨200, healthBody "initializing" Json.null⟩) ∧
    (∀ i, srv.identity = some i →
      health_check srv = ⟨200, healthBody "healthy" (Json.str i.address)⟩) ∧
    (Json.getField (health_check srv).body "status" = some (Json.str "healthy") ↔
      Json.getField (health_check srv).body "agent_address" ≠ some Json.null) := by
  refine ⟨fun h => by simp [health_check, healthBody, h],
    fun i h => by simp [health_check, healthBody, h], ?_⟩
  cases h : srv.identity with
  | none =>
      have hb : health_check srv = ⟨200, healthBody "initializing" Json.null⟩ := by
        simp [health_check, healthBody, h]
      rw [hb]
      show (some (Json.str "initializing") = some (Json.str "healthy")) ↔
        (some Json.null ≠ some Json.null)
      constructor
      · intro hcontra
        injection hcontra with h1
        injection h1 with h2
        exact absurd h2 (by decide)
      · intro hcontra
        exact absurd rfl hcontra
  | some i =>
      have hb : health_check srv = ⟨200, healthBody "healthy" (Json.str i.address)⟩ := by
        simp [health_check, healthBody, h]
      rw [hb]
      show (some (Json.str "healthy") = some (Json.str "healthy")) ↔
        (some (Json.str i.address) ≠ some Json.null)
      constructor
      · intro _ hcontra
        injection hcontra with h1
        exact Json.noConfusion h1
      · intro _
        rfl

/-- A server whose identity has been established. -/
def srvIdent : AgentServer := { srv0 with identity := some { address := "agent1qaddr" } }

/-- C3 witness: concrete evaluation before and after identity creation. -/
theorem C3_witness :
    srv0.identity = none ∧
    health_check srv0 = ⟨200, healthBody "initializing" Json.null⟩ ∧
    srvIdent.identity = some { address := "agent1qaddr" } ∧
    health_check srvIdent = ⟨200, healthBody "healthy" (Json.str "agent1qaddr")⟩ :=
  ⟨rfl, (C3_health_check_status srv0).1 rfl, rfl,
    (C3_health_check_status srvIdent).2.1 { address := "agent1qaddr" } rfl⟩

/-- C4: before identity is established, `send_message` returns false and
performs no outbound call (empty call trace); after it is established, the
outbound primitive is called, any failure of it yields the return value
false rather than a propagated exception (the result type of the model is
`Bool`, so no exception can escape), and success yields true. -/
theorem C4_send_message_behaviour
    (sendToAgent : Identity → String → Json → Except String Unit)
    (srv : AgentServer) (recipient : String) (payload : Json) :
    (srv.identity = none →
      send_message sendToAgent srv recipient payload = (false, [])) ∧
    (∀ i, srv.identity = some i →
      (sendToAgent i recipient payload = Except.ok () →
        send_message sendToAgent srv recipient payload =
          (true, [⟨i, recipient, payload⟩])) ∧
      (∀ e, sendToAgent i recipient payload = Except.error e →
        send_message sendToAgent srv recipient payload =
          (false, [⟨i, recipient, payload⟩]))) := by
  refine ⟨fun h => by simp [send_message, h],
    fun i h => ⟨fun hs => by simp [send_message, h, hs],
      fun e hs => by simp [send_message, h, hs]⟩⟩

/-- An outbound primitive that always succeeds. -/
def sendOkPrim : Identity → String → Json → Except String Unit :=
  fun _ _ _ => Except.ok ()

/-- An outbound primitive that always raises. -/
def sendFailPrim : Identity → String → Json → Except String Unit :=
  fun _ _ _ => Except.error "network unreachable"

/-- C4 witness: concrete evaluation before identity (false, no call), after
identity with a succeeding primitive (true) and with a raising one
(false). -/
theorem C4_witness :
    srv0.identity = none ∧
    send_message sendOkPrim srv0 "agent2" (Json.str "hi") = (false, []) ∧
    srvIdent.identity = some { address := "agent1qaddr" } ∧
    send_message sendOkPrim srvIdent "agent2" (Json.str "hi") =
      (true, [⟨{ address := "agent1qaddr" }, "agent2", Json.str "hi"⟩]) ∧
    send_message sendFailPrim srvIdent "agent2" (Json.str "hi") =
      (false, [⟨{ address := "agent1qaddr" }, "agent2", Json.str "hi"⟩]) :=
  ⟨rfl, (C4_send_message_behaviour sendOkPrim srv0 "agent2" (Json.str "hi")).1 rfl, rfl,
    ((C4_send_message_behaviour sendOkPrim srvIdent "agent2" (Json.str "hi")).2 _ rfl).1 rfl,
    ((C4_send_message_behaviour sendFailPrim srvIdent "agent2" (Json.str "hi")).2 _ rfl).2
      "network unreachable" rfl⟩

/-- C5: a path that does not begin with a slash is bound at `/api/`
followed by the given name; a path that begins with a slash is bound
unchanged. -/
theorem C5_register_endpoint_path (srv : AgentServer) (path : String)
    (handler : Handler) (methods : Option (List String)) :
    (pyStartswith path "/" = false →
      (register_endpoint srv path handler methods).routes =
        srv.routes ++ [⟨"/api/" ++ path, resolveMethods methods, endpoint_wrapper handler⟩]) ∧
    (pyStartswith path "/" = true →
      (register_endpoint srv path handler methods).routes =
        srv.routes ++ [⟨path, resolveMethods methods, endpoint_wrapper handler⟩]) := by
  constructor <;> intro h <;> simp [register_endpoint, h]

/-- C5 witness: the bare name foo binds at `/api/foo`; the path `/custom`
binds unchanged. -/
theorem C5_witness :
    pyStartswith "foo" "/" = false ∧
    (register_endpoint srv0 "foo" raisingHandler none).routes =
      srv0.routes ++ [⟨"/api/foo", ["POST"], endpoint_wrapper raisingHandler⟩] ∧
    pyStartswith "/custom" "/" = true ∧
    (register_endpoint srv0 "/custom" raisingHandler none).routes =
      srv0.routes ++ [⟨"/custom", ["POST"], endpoint_wrapper raisingHandler⟩] :=
  ⟨by decide, (C5_register_endpoint_path srv0 "foo" raisingHandler none).1 (by decide),
    by decide, (C5_register_endpoint_path srv0 "/custom" raisingHandler none).2 (by decide)⟩

/-- C6: when a valid envelope from a sender with a registered handler
arrives at the webhook, the response is the success body and the handler
trace records exactly one invocation — of the handler looked up under the
exact sender string, applied to the decoded payload. -/
theorem C6_handler_invoked_once (srv : AgentServer)
    (parse : String → Except String Message) (rawBody : String)
    (msg : Message) (h : Handler)
    (hp : parse rawBody = Except.ok msg)
    (hh : List.lookup msg.sender srv.response_handlers = some h) :
    (webhook srv parse rawBody).response = ⟨200, statusSuccess⟩ ∧
    (webhook srv parse rawBody).handler_calls =
      [⟨msg.sender, msg.payload, h msg.payload⟩] := by
  constructor <;> simp [webhook, hp, hh]

/-- A handler that returns a value echoing its input. -/
def valueHandler : Handler := fun p => Except.ok (Json.obj [("echo", p)])

/-- A server with `valueHandler` registered for the sender agent1. -/
def srvAgent1 : AgentServer :=
  register_handler (AgentServer.init cfg0 meta0 "seed-key" "token") "agent1" valueHandler

/-- C6 witness: a concrete envelope from agent1 produces the success
response and exactly one invocation of agent1's handler with the decoded
payload. -/
theorem C6_witness :
    parseOk "body" = Except.ok { sender := "agent1", payload := Json.str "q" } ∧
    List.lookup "agent1" srvAgent1.response_handlers = some valueHandler ∧
    (webhook srvAgent1 parseOk "body").response = ⟨200, statusSuccess⟩ ∧
    (webhook srvAgent1 parseOk "body").handler_calls =
      [⟨"agent1", Json.str "q", Except.ok (Json.obj [("echo", Json.str "q")])⟩] :=
  ⟨rfl, rfl,
    (C6_handler_invoked_once srvAgent1 parseOk "body" _ valueHandler rfl rfl).1,
    (C6_handler_invoked_once srvAgent1 parseOk "body" _ valueHandler rfl rfl).2⟩

/-- C7: the endpoint wrapper invokes the callback with the empty mapping
when the request carries no JSON body and with the parsed body otherwise;
the callback's return value becomes the 200 response body, and a raised
exception becomes HTTP 500 with `{"error": <message>}` — never a
propagated exception, the wrapper being a total function into
responses. -/
theorem C7_endpoint_wrapper_behaviour (handler : Handler) :
    (∀ r, handler (Json.obj []) = Except.ok r →
      endpoint_wrapper handler none = ⟨200, r⟩) ∧
    (∀ j r, handler j = Except.ok r →
      endpoint_wrapper handler (some j) = ⟨200, r⟩) ∧
    (∀ e, handler (Json.obj []) = Except.error e →
      endpoint_wrapper handler none = ⟨500, jsonError e⟩) ∧
    (∀ j e, handler j = Except.error e →
      endpoint_wrapper handler (some j) = ⟨500, jsonError e⟩) := by
  refine ⟨fun r hr => ?_, fun j r hr => ?_, fun e he => ?_, fun j e he => ?_⟩ <;>
    simp [endpoint_wrapper, *]

/-- C7 witness: concrete evaluation of the wrapper on a missing body, a
JSON body, and a raising callback. -/
theorem C7_witness :
    valueHandler (Json.obj []) = Except.ok (Json.obj [("echo", Json.obj [])]) ∧
    endpoint_wrapper valueHandler none = ⟨200, Json.obj [("echo", Json.obj [])]⟩ ∧
    valueHandler (Json.str "b") = Except.ok (Json.obj [("echo", Json.str "b")]) ∧
    endpoint_wrapper valueHandler (some (Json.str "b")) =
      ⟨200, Json.obj [("echo", Json.str "b")]⟩ ∧
    raisingHandler (Json.obj []) = Except.error "boom" ∧
    endpoint_wrapper raisingHandler none = ⟨500, jsonError "boom"⟩ :=
  ⟨rfl, (C7_endpoint_wrapper_behaviour valueHandler).1 _ rfl,
    rfl, (C7_endpoint_wrapper_behaviour valueHandler).2.1 _ _ rfl,
    rfl, (C7_endpoint_wrapper_behaviour raisingHandler).2.2.1 _ rfl⟩

/-- C8: `start` raises when the agent key or the token is empty, and
propagates a registration failure; in both failure cases the listener
thread is never launched, while on success the listener is launched and
the call returns normally. -/
theorem C8_start_failure_semantics (fromSeed : String → Nat → Identity)
    (registerDir : Identity → String → String → String → String → Except String Unit)
    (srv : AgentServer) :
    (srv.agent_key = "" ∨ srv.agentverse_token = "" →
      start fromSeed registerDir srv =
        ⟨srv, Except.error "Missing required API keys", false⟩) ∧
    (srv.agent_key ≠ "" → srv.agentverse_token ≠ "" →
      (∀ e, registerDir (fromSeed srv.agent_key 0) (webhookUrl srv.config)
          srv.agentverse_token srv.metadata.title srv.metadata.readme = Except.error e →
        start fromSeed registerDir srv =
          ⟨{ srv with identity := some (fromSeed srv.agent_key 0) },
            Except.error e, false⟩) ∧
      (registerDir (fromSeed srv.agent_key 0) (webhookUrl srv.config)
          srv.agentverse_token srv.metadata.title srv.metadata.readme = Except.ok () →
        start fromSeed registerDir srv =
          ⟨{ srv with identity := some (fromSeed srv.agent_key 0) },
            Except.ok (), true⟩)) := by
  refine ⟨fun h => ?_, fun hk ht => ⟨fun e hr => ?_, fun hr => ?_⟩⟩ <;>
    simp [start, init_agent, *]

/-- Identity creation oracle used in witnesses. -/
def fromSeed0 : String → Nat → Identity := fun _ _ => { address := "agent1qaddr" }

/-- A directory registration call that succeeds. -/
def regOk : Identity → String → String → String → String → Except String Unit :=
  fun _ _ _ _ _ => Except.ok ()

/-- A directory registration call that raises. -/
def regFail : Identity → String → String → String → String → Except String Unit :=
  fun _ _ _ _ _ => Except.error "registration failed"

/-- A server constructed with an empty agent key. -/
def srvNoKey : AgentServer := AgentServer.init cfg0 meta0 "" "token"

/-- C8 witness: a missing key aborts start without launching the listener;
a failing registration propagates its error without launching; a
successful registration launches the listener. -/
theorem C8_witness :
    (srvNoKey.agent_key = "" ∨ srvNoKey.agentverse_token = "") ∧
    start fromSeed0 regOk srvNoKey =
      ⟨srvNoKey, Except.error "Missing required API keys", false⟩ ∧
    srv0.agent_key ≠ "" ∧ srv0.agentverse_token ≠ "" ∧
    regFail (fromSeed0 srv0.agent_key 0) (webhookUrl srv0.config) srv0.agentverse_token
      srv0.metadata.title srv0.metadata.readme = Except.error "registration failed" ∧
    start fromSeed0 regFail srv0 =
      ⟨{ srv0 with identity := some (fromSeed0 srv0.agent_key 0) },
        Except.error "registration failed", false⟩ ∧
    start fromSeed0 regOk srv0 =
      ⟨{ srv0 with identity := some (fromSeed0 srv0.agent_key 0) },
        Except.ok (), true⟩ :=
  ⟨Or.inl rfl,
    (C8_start_failure_semantics fromSeed0 regOk srvNoKey).1 (Or.inl rfl),
    by decide, by decide, rfl,
    ((C8_start_failure_semantics fromSeed0 regFail srv0).2 (by decide) (by decide)).1
      "registration failed" rfl,
    ((C8_start_failure_semantics fromSeed0 regOk srv0).2 (by decide) (by decide)).2 rfl⟩

/-- C9: the message queue grows by exactly the decoded message when the
webhook decodes successfully and is unchanged on decode failure; the
pre-state queue is always an initial segment of the post-state queue, so
the webhook never removes entries and the length is non-decreasing; the
other state-changing operations (`register_handler`, `register_endpoint`,
`start`) leave the queue untouched, and `health_check` and `send_message`
take the state read-only, so no operation of the dispatch surface ever
removes an entry. -/
theorem C9_queue_append_only :
    (∀ srv parse rawBody msg, parse rawBody = Except.ok msg →
      (webhook srv parse rawBody).server.message_queue = srv.message_queue ++ [msg]) ∧
    (∀ srv parse rawBody e, parse rawBody = Except.error e →
      (webhook srv parse rawBody).server.message_queue = srv.message_queue) ∧
    (∀ srv parse rawBody, ∃ t,
      (webhook srv parse rawBody).server.message_queue = srv.message_queue ++ t) ∧
    (∀ srv parse rawBody, srv.message_queue.length ≤
      (webhook srv parse rawBody).server.message_queue.length) ∧
    (∀ srv a h, (register_handler srv a h).message_queue = srv.message_queue) ∧
    (∀ srv p h m, (register_endpoint srv p h m).message_queue = srv.message_queue) ∧
    (∀ fromSeed registerDir srv,
      (start fromSeed registerDir srv).server.message_queue = srv.message_queue) := by
  have hok : ∀ srv parse rawBody msg, parse rawBody = Except.ok msg →
      (webhook srv parse rawBody).server.message_queue = srv.message_queue ++ [msg] := by
    intro srv parse rawBody msg hp
    rcases hl : List.lookup msg.sender srv.response_handlers with _ | h <;>
      simp [webhook, hp, hl]
  have herr : ∀ srv parse rawBody e, parse rawBody = Except.error e →
      (webhook srv parse rawBody).server.message_queue = srv.message_queue := by
    intro srv parse rawBody e hp
    simp [webhook, hp]
  have hseg : ∀ srv parse rawBody, ∃ t,
      (webhook srv parse rawBody).server.message_queue = srv.message_queue ++ t := by
    intro srv parse rawBody
    rcases hp : parse rawBody with e | m
    · exact ⟨[], by rw [herr srv parse rawBody e hp, List.append_nil]⟩
    · exact ⟨[m], hok srv parse rawBody m hp⟩
  refine ⟨hok, herr, hseg, ?_, fun srv a h => rfl, fun srv p h m => rfl, ?_⟩
  · intro srv parse rawBody
    obtain ⟨t, ht⟩ := hseg srv parse rawBody
    rw [ht]
    simp
  · intro fromSeed registerDir srv
    by_cases hc : srv.agent_key = "" ∨ srv.agentverse_token = ""
    · simp [start, init_agent, hc]
    · rcases hr : registerDir (fromSeed srv.agent_key 0) (webhookUrl srv.config)
          srv.agentverse_token srv.metadata.title srv.metadata.readme with e | u <;>
        simp [start, init_agent, hc, hr]

/-- C9 witness: concrete evaluation of the two webhook cases. -/
theorem C9_witness :
    parseOk "body" = Except.ok { sender := "agent1", payload := Json.str "q" } ∧
    (webhook srv0 parseOk "body").server.message_queue =
      srv0.message_queue ++ [{ sender := "agent1", payload := Json.str "q" }] ∧
    parseBoom "body" = Except.error "boom" ∧
    (webhook srv0 parseBoom "body").server.message_queue = srv0.message_queue :=
  ⟨rfl, C9_queue_append_only.1 srv0 parseOk "body" _ rfl, rfl,
    C9_queue_append_only.2.1 srv0 parseBoom "body" "boom" rfl⟩

/-- C10: when `methods` is omitted (Python default `None`), passed as
`None`, or passed as the empty list, the endpoint is bound with the method
list exactly `["POST"]`. -/
theorem C10_default_methods (srv : AgentServer) (path : String) (handler : Handler) :
    (register_endpoint srv path handler none).routes.map Route.methods =
      srv.routes.map Route.methods ++ [["POST"]] ∧
    (register_endpoint srv path handler (some [])).routes.map Route.methods =
      srv.routes.map Route.methods ++ [["POST"]] := by
  constructor <;> simp [register_endpoint, resolveMethods]
